import Mathlib

/-!
# QMusic playback engine (`src/Music/ffmpegwrapper.cpp`)

A shallow embedding of the class `FFmpegWrapper`: its member fields become a
record, every member function becomes a function from the record (plus the
results the FFmpeg calls and the worker thread hand back) to the new record and
the sequence of observable actions the function performs, in program order.

Conventions of the embedding.

* A pointer field is a `Bool`: `true` for a non-null pointer, `false` for
  `nullptr`.  `m_videoStream` keeps the one datum read through it, the
  stream's `time_base`.
* A `double` is an exact rational (finite values only).
* Each construction of a `QMutexLocker` on `m_mutex` is the action
  `Act.lock`, each destruction of a still locked locker or call of
  `locker.unlock()` is `Act.unlock`.  `m_mutex` is a `QMutex` that is not
  recursive (ffmpegwrapper.h, line 163).  A member function is entered by a
  thread that does not hold the mutex, so its own locker is granted.  Where a
  function is called under the caller's locker (`closeFile` at line 71,
  `decodeVideoFrame` at line 365) the callee's locker is never granted
  (`withLocker`): the thread blocks there for good, and the actions and the
  fields stop at that point.  The recorded sequences are analysed with
  `lockDepths` and `selfLockFree`.
* The results of the FFmpeg calls are parameters (`OpenEnv`, `seekOk`,
  `Iteration`), so a theorem quantifying over them covers every outcome.
-/

namespace QMusic

/-- The signals of `FFmpegWrapper` (`signals:` in ffmpegwrapper.h).  The image
carried by `frameReady` is left out. -/
inductive Signal where
  | frameReady
  | playbackFinished
  | errorOccurred (errorMsg : String)
  | positionChanged (position : ℚ)
  deriving DecidableEq, Repr

/-- Observable actions of a member function, in program order. -/
inductive Act where
  | lock
  | unlock
  | emit (sig : Signal)
  | readFrame
  | seekFrame (streamIndex : Int) (timestamp : Int)
  | flushBuffers
  | threadStart
  | threadQuit
  | threadWait
  | msleep (ms : Int)
  deriving DecidableEq, Repr

/-- An `AVRational`, as in `AVStream::time_base`. -/
structure AVRational where
  num : Int
  den : Int
  deriving DecidableEq, Repr

/-- The function `av_q2d`: the rational as a number. -/
def av_q2d (a : AVRational) : ℚ := (a.num : ℚ) / (a.den : ℚ)

/-- The constant `AV_TIME_BASE` of libavutil. -/
def AV_TIME_BASE : Int := 1000000

/-- Conversion of a `double` to `int64_t`: truncation toward zero. -/
def toInt64 (x : ℚ) : Int := if 0 ≤ x then Rat.floor x else -Rat.floor (-x)

/-- The member fields of `FFmpegWrapper` (ffmpegwrapper.h, lines 159-185);
`threadRunning` is `m_decodeThread->isRunning()`. -/
structure FFmpegWrapper where
  threadRunning : Bool
  m_isRunning : Bool
  m_isPaused : Bool
  m_formatCtx : Bool
  m_videoCodecCtx : Bool
  m_videoStream : Option AVRational
  m_videoStreamIndex : Int
  m_swsCtx : Bool
  m_duration : ℚ
  m_currentPosition : ℚ
  m_videoWidth : Int
  m_videoHeight : Int
  m_rawFrame : Bool
  m_rgbFrame : Bool
  m_rgbBuffer : Bool
  m_rgbBufferSize : Int
  m_currentFilePath : String
  deriving DecidableEq, Repr

/-- What a member function did: its return value, the fields afterwards and
the actions it performed. -/
structure Run (α : Type) where
  ret : α
  state : FFmpegWrapper
  trace : List Act

/-- The signals emitted in a sequence of actions, in order. -/
def signals : List Act → List Signal
  | [] => []
  | Act.emit sig :: rest => sig :: signals rest
  | _ :: rest => signals rest

/-- The fields after the constructor's initialiser list (lines 15-32). -/
def FFmpegWrapper.init : FFmpegWrapper :=
  { threadRunning := false, m_isRunning := false, m_isPaused := false,
    m_formatCtx := false, m_videoCodecCtx := false, m_videoStream := none,
    m_videoStreamIndex := -1, m_swsCtx := false, m_duration := 0,
    m_currentPosition := 0, m_videoWidth := 0, m_videoHeight := 0,
    m_rawFrame := false, m_rgbFrame := false, m_rgbBuffer := false,
    m_rgbBufferSize := 0, m_currentFilePath := "" }

/-- The handler connected to `QThread::finished` in the constructor
(lines 42-44), run when the worker thread ends. -/
def threadFinished (s : FFmpegWrapper) : FFmpegWrapper :=
  { s with threadRunning := false, m_isRunning := false }

/-- The effect of `m_decodeThread->quit(); m_decodeThread->wait()` on the
fields: the worker finishes the iteration it is in, which may store a position
(`workerPos`), leaves `decodeLoop`, and the thread ends. -/
def threadWait (s : FFmpegWrapper) (workerPos : Option ℚ) : FFmpegWrapper :=
  threadFinished { s with m_currentPosition := workerPos.getD s.m_currentPosition }

/-- The member `freeResources` (lines 179-218). -/
def freeResources (s : FFmpegWrapper) : FFmpegWrapper :=
  { s with
    m_swsCtx := false, m_rgbBuffer := false, m_rgbFrame := false,
    m_rawFrame := false, m_videoCodecCtx := false, m_formatCtx := false,
    m_videoStream := none, m_videoStreamIndex := -1, m_duration := 0,
    m_currentPosition := 0, m_videoWidth := 0, m_videoHeight := 0,
    m_currentFilePath := "" }

/-- The member `closeFile` (lines 164-177). -/
def closeFile (s : FFmpegWrapper) (workerPos : Option ℚ) : Run Unit :=
  if s.m_isRunning then
    let s1 := { s with m_isRunning := false }
    if s1.threadRunning then
      { ret := (), state := freeResources (threadWait s1 workerPos),
        trace := [Act.lock, Act.threadQuit, Act.threadWait, Act.unlock] }
    else
      { ret := (), state := freeResources s1, trace := [Act.lock, Act.unlock] }
  else
    { ret := (), state := freeResources s, trace := [Act.lock, Act.unlock] }

/-- A call of a function whose first statement constructs a `QMutexLocker` on
`m_mutex`, by a thread for which `held` says whether it holds the mutex
already.  The mutex is not recursive: a thread that holds it blocks in the
constructor for good and the call gives nothing, `none`; otherwise the call
does what the function does, `body`. -/
def withLocker {α : Type} (held : Bool) (body : α) : Option α :=
  if held then none else some body

/-- The results of the FFmpeg calls made by `openFile`, one field per call. -/
structure OpenEnv where
  /-- `avformat_open_input(...) == 0` -/
  openInput : Bool
  /-- `avformat_find_stream_info(...) >= 0` -/
  findStreamInfo : Bool
  /-- the value of `av_find_best_stream(...)` -/
  bestStream : Int
  /-- `time_base` of the selected stream -/
  timeBase : AVRational
  /-- `avcodec_find_decoder(...) != nullptr` -/
  findDecoder : Bool
  /-- `avcodec_alloc_context3(...) != nullptr` -/
  allocContext : Bool
  /-- `avcodec_parameters_to_context(...) >= 0` -/
  parametersToContext : Bool
  /-- `avcodec_open2(...) >= 0` -/
  open2 : Bool
  /-- `m_videoCodecCtx->width` -/
  width : Int
  /-- `m_videoCodecCtx->height` -/
  height : Int
  /-- `m_formatCtx->duration` -/
  duration : Int
  /-- the value of `av_image_get_buffer_size(...)` -/
  bufferSize : Int
  /-- `av_frame_alloc() != nullptr`, first call -/
  rawFrame : Bool
  /-- `av_frame_alloc() != nullptr`, second call -/
  rgbFrame : Bool
  /-- `av_malloc(...) != nullptr` -/
  rgbBuffer : Bool
  /-- `sws_getContext(...) != nullptr` -/
  swsCtx : Bool
  deriving DecidableEq, Repr

/-- The member `openFile` (lines 66-162); `ret` is `none` when the call never
returns.  The call of `closeFile` at line 71 is made under the locker of line
68.  `avformat_open_input` leaves `m_formatCtx` null when it fails;
`avformat_close_input` and `avcodec_free_context` null the pointer they are
given. -/
def openFile (s : FFmpegWrapper) (filePath : String) (env : OpenEnv)
    (workerPos : Option ℚ) : Run (Option Bool) :=
  match withLocker true (closeFile s workerPos) with
  | none => { ret := none, state := s, trace := [Act.lock, Act.lock] }
  | some c =>
    let pre := Act.lock :: c.trace
    let s1 := { c.state with m_currentFilePath := filePath }
    if !env.openInput then
      { ret := some false, state := s1,
        trace := pre ++ [Act.emit (Signal.errorOccurred "无法打开视频文件"), Act.unlock] }
    else
      let s2 := { s1 with m_formatCtx := true }
      if !env.findStreamInfo then
        { ret := some false, state := { s2 with m_formatCtx := false },
          trace := pre ++ [Act.emit (Signal.errorOccurred "无法获取流信息"), Act.unlock] }
      else
        let s3 := { s2 with m_videoStreamIndex := env.bestStream }
        if env.bestStream < 0 then
          { ret := some false, state := { s3 with m_formatCtx := false },
            trace := pre ++ [Act.emit (Signal.errorOccurred "未找到视频流"), Act.unlock] }
        else
          let s4 := { s3 with m_videoStream := some env.timeBase }
          if !env.findDecoder then
            { ret := some false, state := { s4 with m_formatCtx := false },
              trace := pre ++
                [Act.emit (Signal.errorOccurred "未找到合适的解码器"), Act.unlock] }
          else
            let s5 := { s4 with m_videoCodecCtx := env.allocContext }
            if !env.allocContext then
              { ret := some false, state := { s5 with m_formatCtx := false },
                trace := pre ++
                  [Act.emit (Signal.errorOccurred "无法创建解码器上下文"), Act.unlock] }
            else if !env.parametersToContext then
              { ret := some false,
                state := { s5 with m_videoCodecCtx := false, m_formatCtx := false },
                trace := pre ++
                  [Act.emit (Signal.errorOccurred "无法复制解码器参数"), Act.unlock] }
            else if !env.open2 then
              { ret := some false,
                state := { s5 with m_videoCodecCtx := false, m_formatCtx := false },
                trace := pre ++ [Act.emit (Signal.errorOccurred "无法打开解码器"), Act.unlock] }
            else
              { ret := some true,
                state := { s5 with
                  m_videoWidth := env.width, m_videoHeight := env.height,
                  m_duration := (env.duration : ℚ) / (AV_TIME_BASE : ℚ),
                  m_rawFrame := env.rawFrame, m_rgbFrame := env.rgbFrame,
                  m_rgbBufferSize := env.bufferSize, m_rgbBuffer := env.rgbBuffer,
                  m_swsCtx := env.swsCtx },
                trace := pre ++ [Act.unlock] }

/-- The member `play` (lines 220-234). -/
def play (s : FFmpegWrapper) : Run Unit :=
  if !s.m_formatCtx then
    { ret := (), state := s, trace := [Act.lock, Act.unlock] }
  else if !s.m_isRunning then
    { ret := (),
      state := { s with m_isRunning := true, threadRunning := true, m_isPaused := false },
      trace := [Act.lock, Act.threadStart, Act.unlock] }
  else
    { ret := (), state := { s with m_isPaused := false }, trace := [Act.lock, Act.unlock] }

/-- The member `pause` (lines 236-240). -/
def pause (s : FFmpegWrapper) : Run Unit :=
  { ret := (), state := { s with m_isPaused := true }, trace := [Act.lock, Act.unlock] }

/-- The member `stop` (lines 242-272); `seekOk` is `av_seek_frame(...) >= 0`. -/
def stop (s : FFmpegWrapper) (workerPos : Option ℚ) (seekOk : Bool) : Run Unit :=
  let s1 := { s with m_isRunning := false, m_isPaused := false }
  let s2 := if s1.threadRunning then threadWait s1 workerPos else s1
  let t1 := if s1.threadRunning then [Act.threadQuit, Act.threadWait] else []
  let s3 := { s2 with m_currentPosition := 0 }
  let t2 :=
    if s3.m_formatCtx then
      Act.seekFrame s3.m_videoStreamIndex 0 :: (if seekOk then [Act.flushBuffers] else [])
    else []
  { ret := (), state := s3,
    trace := [Act.lock, Act.unlock] ++ t1 ++
      [Act.lock, Act.emit (Signal.positionChanged s3.m_currentPosition)] ++ t2 ++ [Act.unlock] }

/-- The member `seek` (lines 274-292); `seekOk` is `av_seek_frame(...) >= 0`. -/
def seek (s : FFmpegWrapper) (position : ℚ) (seekOk : Bool) : Run Unit :=
  if !s.m_formatCtx then
    { ret := (), state := s, trace := [Act.lock, Act.unlock] }
  else
    let targetTimestamp := toInt64 (position * (AV_TIME_BASE : ℚ))
    if seekOk then
      let s1 := { s with m_currentPosition := position }
      { ret := (), state := s1,
        trace := [Act.lock, Act.seekFrame s.m_videoStreamIndex targetTimestamp,
          Act.flushBuffers, Act.emit (Signal.positionChanged s1.m_currentPosition),
          Act.unlock] }
    else
      { ret := (), state := s,
        trace := [Act.lock, Act.seekFrame s.m_videoStreamIndex targetTimestamp, Act.unlock] }

/-- The getter `getDuration` (lines 294-298), read under the lock. -/
def getDuration (s : FFmpegWrapper) : ℚ := s.m_duration

/-- The getter `getCurrentPosition` (lines 300-304), read under the lock. -/
def getCurrentPosition (s : FFmpegWrapper) : ℚ := s.m_currentPosition

/-- The getter `getVideoWidth` (lines 306-310), read under the lock. -/
def getVideoWidth (s : FFmpegWrapper) : Int := s.m_videoWidth

/-- The getter `getVideoHeight` (lines 312-316), read under the lock. -/
def getVideoHeight (s : FFmpegWrapper) : Int := s.m_videoHeight

/-- The getter `isPlaying` (lines 318-322). -/
def isPlaying (s : FFmpegWrapper) : Bool := s.m_isRunning && !s.m_isPaused

/-- The getter `isPaused` (lines 324-328). -/
def isPaused (s : FFmpegWrapper) : Bool := s.m_isRunning && s.m_isPaused

/-! ## The decode worker (`decodeLoop`, `decodeVideoFrame`)

The worker's actions carry the time, in milliseconds, at which they happen.
The time an FFmpeg call takes and the time a sleep lasts beyond the request
are part of the environment of an iteration. -/

/-- What `decodeVideoFrame` gets from the decoder for one packet. -/
inductive Decoded where
  /-- `avcodec_send_packet(...) < 0` -/
  | sendFailed
  /-- `avcodec_receive_frame(...) < 0` (`EAGAIN`, end of file or an error) -/
  | receiveFailed
  /-- a frame with its `pts`; `none` is `AV_NOPTS_VALUE` -/
  | frame (pts : Option Int)
  deriving DecidableEq, Repr

/-- What `av_read_frame` gives in one iteration. -/
inductive ReadFrame where
  /-- `ret < 0`: end of stream -/
  | failed
  /-- `ret >= 0`: a packet of stream `stream_index` and what decoding it gives -/
  | packet (stream_index : Int) (decoded : Decoded)
  deriving DecidableEq, Repr

/-- The environment of one iteration of the loop in `decodeLoop`. -/
structure Iteration where
  read : ReadFrame
  /-- milliseconds spent in `av_read_frame` -/
  readMs : Nat
  /-- milliseconds spent in decoding and conversion -/
  decodeMs : Nat
  /-- milliseconds a sleep of this iteration lasts beyond the requested time -/
  oversleep : Nat
  deriving DecidableEq, Repr

/-- The local constant `frameInterval` of `decodeLoop` (line 335). -/
def frameInterval : Int := 1000 / 30

/-- What a call of `decodeVideoFrame` did. -/
structure DecodeRun where
  ret : Bool
  pts : Option Int
  now : Int
  trace : List (Int × Act)

/-- The member `decodeVideoFrame` (lines 397-427), entered at time `now` by a
thread that does not hold the mutex. -/
def decodeVideoFrame (now : Int) (decodeMs : Nat) (d : Decoded) : DecodeRun :=
  let t := now + decodeMs
  match d with
  | Decoded.sendFailed =>
    { ret := false, pts := none, now := t, trace := [(now, Act.lock), (t, Act.unlock)] }
  | Decoded.receiveFailed =>
    { ret := false, pts := none, now := t, trace := [(now, Act.lock), (t, Act.unlock)] }
  | Decoded.frame pts =>
    { ret := true, pts := pts, now := t,
      trace := [(now, Act.lock), (t, Act.unlock), (t, Act.emit Signal.frameReady)] }

/-- What one iteration of the loop in `decodeLoop` did.  `continues` is true
when the iteration came to its end and the loop goes on; `blocked` is true when
the thread blocked for good inside the iteration; when both are false the
iteration left the loop through `break`. -/
structure IterRun where
  state : FFmpegWrapper
  now : Int
  lastFrameTime : Int
  continues : Bool
  blocked : Bool
  trace : List (Int × Act)

/-- What the block of lines 361-373 of `decodeLoop` did: the fields, the time
and the actions at its end, or at the point where the thread blocked. -/
structure PacketRun where
  state : FFmpegWrapper
  now : Int
  blocked : Bool
  trace : List (Int × Act)

/-- The position stored for a decoded frame (line 368). -/
def positionOf (s : FFmpegWrapper) (pts : Int) : ℚ :=
  (pts : ℚ) * (match s.m_videoStream with
    | some tb => av_q2d tb
    | none => 0)

/-- The block of lines 361-373 of `decodeLoop`, entered at time `t1` with the
packet read.  The call of `decodeVideoFrame` at line 365 is made under the
locker of line 362. -/
def decodePacket (s : FFmpegWrapper) (t1 : Int) (decodeMs : Nat) (stream_index : Int)
    (d : Decoded) : PacketRun :=
  if stream_index = s.m_videoStreamIndex then
    match withLocker true (decodeVideoFrame t1 decodeMs d) with
    | none =>
      { state := s, now := t1, blocked := true, trace := [(t1, Act.lock), (t1, Act.lock)] }
    | some r =>
      if r.ret then
        match r.pts with
        | some pts =>
          let s1 := { s with m_currentPosition := positionOf s pts }
          { state := s1, now := r.now, blocked := false,
            trace := [(t1, Act.lock)] ++ r.trace ++
              [(r.now, Act.emit (Signal.positionChanged s1.m_currentPosition)),
                (r.now, Act.unlock)] }
        | none =>
          { state := s, now := r.now, blocked := false,
            trace := [(t1, Act.lock)] ++ r.trace ++ [(r.now, Act.unlock)] }
      else
        { state := s, now := r.now, blocked := false,
          trace := [(t1, Act.lock)] ++ r.trace ++ [(r.now, Act.unlock)] }
  else
    { state := s, now := t1, blocked := false, trace := [(t1, Act.lock), (t1, Act.unlock)] }

/-- The pacing of lines 378-382 of `decodeLoop`: the time after it and its
actions, for the `currentTime` measured and the local `lastFrameTime`. -/
def pace (currentTime lastFrameTime : Int) (oversleep : Nat) : Int × List (Int × Act) :=
  let elapsed := currentTime - lastFrameTime
  if elapsed < frameInterval then
    (currentTime + (frameInterval - elapsed) + oversleep,
      [(currentTime, Act.msleep (frameInterval - elapsed))])
  else (currentTime, [])

/-- One iteration of the loop body of `decodeLoop` (lines 339-387), started at
time `now` with the local `lastFrameTime`. -/
def decodeLoopIter (s : FFmpegWrapper) (now lastFrameTime : Int) (it : Iteration) : IterRun :=
  if s.m_isPaused then
    { state := s, now := now + 100 + it.oversleep, lastFrameTime := lastFrameTime,
      continues := true, blocked := false,
      trace := [(now, Act.lock), (now, Act.unlock), (now, Act.msleep 100)] }
  else
    let t1 := now + it.readMs
    let pre := [(now, Act.lock), (now, Act.unlock), (now, Act.lock), (now, Act.readFrame),
      (t1, Act.unlock)]
    match it.read with
    | ReadFrame.failed =>
      { state := s, now := t1, lastFrameTime := lastFrameTime, continues := false,
        blocked := false, trace := pre }
    | ReadFrame.packet stream_index d =>
      let body := decodePacket s t1 it.decodeMs stream_index d
      if body.blocked then
        { state := body.state, now := body.now, lastFrameTime := lastFrameTime,
          continues := false, blocked := true, trace := pre ++ body.trace }
      else
        let currentTime := body.now
        let p := pace currentTime lastFrameTime it.oversleep
        { state := body.state, now := p.1, lastFrameTime := currentTime, continues := true,
          blocked := false, trace := pre ++ body.trace ++ p.2 }

/-- What a run of `decodeLoop` did.  `exited` is true when the worker left
`decodeLoop`, `blocked` when it blocked for good inside an iteration; when both
are false the worker is still in its loop after the iterations given. -/
structure LoopRun where
  state : FFmpegWrapper
  now : Int
  exited : Bool
  blocked : Bool
  trace : List (Int × Act)

/-- The end of `decodeLoop` (lines 390-394) and of the thread, whose
`finished` handler runs last. -/
def decodeLoopExit (s : FFmpegWrapper) (now : Int) : LoopRun :=
  { state := threadFinished s, now := now, exited := true, blocked := false,
    trace := [(now, Act.emit Signal.playbackFinished), (now, Act.threadQuit)] }

/-- The loop `while (m_isRunning)` of `decodeLoop` (lines 338-388) over the
iterations given by the environment. -/
def decodeLoopFrom : FFmpegWrapper → Int → Int → List Iteration → LoopRun
  | s, now, _, [] =>
    if s.m_isRunning then
      { state := s, now := now, exited := false, blocked := false, trace := [] }
    else decodeLoopExit s now
  | s, now, lastFrameTime, it :: rest =>
    if s.m_isRunning then
      let r := decodeLoopIter s now lastFrameTime it
      if r.continues then
        let l := decodeLoopFrom r.state r.now r.lastFrameTime rest
        { l with trace := r.trace ++ l.trace }
      else if r.blocked then
        { state := r.state, now := r.now, exited := false, blocked := true, trace := r.trace }
      else
        let l := decodeLoopExit r.state r.now
        { l with trace := r.trace ++ l.trace }
    else decodeLoopExit s now

/-- The slot `decodeLoop` (lines 330-395), started at time `start`. -/
def decodeLoop (s : FFmpegWrapper) (start : Int) (its : List Iteration) : LoopRun :=
  decodeLoopFrom s start start its

/-- The actions of a timed sequence, without the times. -/
def untimed (tr : List (Int × Act)) : List Act := tr.map Prod.snd

/-- The signals emitted in a sequence of actions of one thread, each with the
number of lockers the thread holds locked at that point, starting from
`depth`. -/
def lockDepths : Nat → List Act → List (Signal × Nat)
  | _, [] => []
  | depth, Act.lock :: rest => lockDepths (depth + 1) rest
  | depth, Act.unlock :: rest => lockDepths (depth - 1) rest
  | depth, Act.emit sig :: rest => (sig, depth) :: lockDepths depth rest
  | depth, _ :: rest => lockDepths depth rest

/-- No action sequence of one thread asks for the lock while the thread holds
it; `held` says whether the thread holds it at the start.  For a mutex that is
not recursive a `false` is a thread blocked on itself. -/
def selfLockFree : Bool → List Act → Bool
  | _, [] => true
  | held, Act.lock :: rest => !held && selfLockFree true rest
  | _, Act.unlock :: rest => selfLockFree false rest
  | held, _ :: rest => selfLockFree held rest

/-- No session resource is held: container handle, decoder handle, frame
buffers and conversion context are all null. -/
def noResources (s : FFmpegWrapper) : Bool :=
  !s.m_formatCtx && !s.m_videoCodecCtx && !s.m_rawFrame && !s.m_rgbFrame && !s.m_rgbBuffer &&
    !s.m_swsCtx

/-- An engine that is playing a stream of 25 frames per second. -/
def playingEngine : FFmpegWrapper :=
  { FFmpegWrapper.init with
    threadRunning := true, m_isRunning := true, m_formatCtx := true,
    m_videoCodecCtx := true, m_videoStream := some { num := 1, den := 25 },
    m_videoStreamIndex := 0, m_swsCtx := true, m_duration := 10,
    m_videoWidth := 320, m_videoHeight := 240, m_rawFrame := true, m_rgbFrame := true,
    m_rgbBuffer := true, m_rgbBufferSize := 230400, m_currentFilePath := "a.mp4" }

/-- An environment in which the file cannot be opened. -/
def missingFile : OpenEnv :=
  { openInput := false, findStreamInfo := false, bestStream := -1,
    timeBase := { num := 0, den := 1 }, findDecoder := false, allocContext := false,
    parametersToContext := false, open2 := false, width := 0, height := 0, duration := 0,
    bufferSize := 0, rawFrame := false, rgbFrame := false, rgbBuffer := false,
    swsCtx := false }

/-- An iteration that reads a video packet of stream 0 with the given `pts`,
decoded at once. -/
def videoPacket (pts : Int) : Iteration :=
  { read := ReadFrame.packet 0 (Decoded.frame (some pts)), readMs := 0, decodeMs := 0,
    oversleep := 0 }

/-- An iteration that reads a packet of stream 1, which is not the video
stream of `playingEngine`, in no time. -/
def otherPacket : Iteration :=
  { read := ReadFrame.packet 1 Decoded.receiveFailed, readMs := 0, decodeMs := 0,
    oversleep := 0 }

/-- An iteration whose read reports the end of the stream. -/
def endOfStream : Iteration :=
  { read := ReadFrame.failed, readMs := 0, decodeMs := 0, oversleep := 0 }

/-- The values the local `currentTime` (line 378) takes in a run of the loop of
`decodeLoop`, in order: one for every iteration that read a packet and came
to line 378.  The loop is walked as in `decodeLoopFrom`. -/
def checkpoints : FFmpegWrapper → Int → Int → List Iteration → List Int
  | _, _, _, [] => []
  | s, now, lastFrameTime, it :: rest =>
    if s.m_isRunning then
      let r := decodeLoopIter s now lastFrameTime it
      if r.continues then
        if s.m_isPaused then checkpoints r.state r.now r.lastFrameTime rest
        else r.lastFrameTime :: checkpoints r.state r.now r.lastFrameTime rest
      else []
    else []

/-- The timestamps `seek` and `stop` hand to `av_seek_frame`, each with the
stream index given with it. -/
def seekTargets : List Act → List (Int × Int)
  | [] => []
  | Act.seekFrame streamIndex timestamp :: rest => (streamIndex, timestamp) :: seekTargets rest
  | _ :: rest => seekTargets rest

/-! ## Theorems -/

/-- C1: whatever the fields before, whatever the worker stored while it was
joined and whatever `av_seek_frame` returns, after `stop` the position is 0 and
the engine is neither playing nor paused. -/
theorem stop_leaves_stopped (s : FFmpegWrapper) (workerPos : Option ℚ) (seekOk : Bool) :
    getCurrentPosition (stop s workerPos seekOk).state = 0 ∧
      isPlaying (stop s workerPos seekOk).state = false ∧
      isPaused (stop s workerPos seekOk).state = false := by
  refine ⟨?_, ?_, ?_⟩
  · simp [stop, getCurrentPosition]
  · cases h : s.threadRunning <;> simp [stop, isPlaying, threadWait, threadFinished, h]
  · cases h : s.threadRunning <;> simp [stop, isPaused, threadWait, threadFinished, h]

/-- C2: with a session open, `seek t` keeps duration, `isPlaying` and
`isPaused`; when `av_seek_frame` succeeds the position becomes `t` and the one
signal emitted is `positionChanged t`; when it fails the position stays and no
signal is emitted. -/
theorem seek_spec (s : FFmpegWrapper) (t : ℚ) (seekOk : Bool) (hopen : s.m_formatCtx = true) :
    getDuration (seek s t seekOk).state = getDuration s ∧
      isPlaying (seek s t seekOk).state = isPlaying s ∧
      isPaused (seek s t seekOk).state = isPaused s ∧
      (seekOk = true →
        getCurrentPosition (seek s t seekOk).state = t ∧
          signals (seek s t seekOk).trace = [Signal.positionChanged t]) ∧
      (seekOk = false →
        getCurrentPosition (seek s t seekOk).state = getCurrentPosition s ∧
          signals (seek s t seekOk).trace = []) := by
  cases seekOk <;>
    simp [seek, hopen, getDuration, isPlaying, isPaused, getCurrentPosition, signals]

/-- Witness of `seek_spec`: a seek to second 5 on the playing engine. -/
theorem seek_spec_witness :
    playingEngine.m_formatCtx = true ∧
      getCurrentPosition (seek playingEngine 5 true).state = 5 ∧
      signals (seek playingEngine 5 true).trace = [Signal.positionChanged 5] :=
  ⟨rfl, ((seek_spec playingEngine 5 true rfl).2.2.2.1 rfl).1,
    ((seek_spec playingEngine 5 true rfl).2.2.2.1 rfl).2⟩

/-- The fields after `closeFile`: nothing is running and no resource is held. -/
theorem closeFile_state (s : FFmpegWrapper) (workerPos : Option ℚ) :
    (closeFile s workerPos).state.m_isRunning = false ∧
      noResources (closeFile s workerPos).state = true := by
  cases h1 : s.m_isRunning <;> cases h2 : s.threadRunning <;>
    simp [closeFile, freeResources, threadWait, threadFinished, noResources, h1, h2]

/-- The actions of `closeFile` emit no signal. -/
theorem closeFile_signals (s : FFmpegWrapper) (workerPos : Option ℚ) :
    signals (closeFile s workerPos).trace = [] := by
  cases h1 : s.m_isRunning <;> cases h2 : s.threadRunning <;>
    simp [closeFile, signals, h1, h2]

/-- The signals of a concatenation. -/
theorem signals_append (a b : List Act) : signals (a ++ b) = signals a ++ signals b := by
  induction a with
  | nil => rfl
  | cons x xs ih => cases x <;> simp [signals, ih]

/-- The call of `closeFile` at line 71 of `openFile`, made under the locker of
line 68, gives nothing. -/
theorem closeFile_under_locker (s : FFmpegWrapper) (workerPos : Option ℚ) :
    withLocker true (closeFile s workerPos) = none := by
  simp [withLocker]

/-- C3: whatever the fields before and whatever the FFmpeg calls would return,
`openFile` does not return: it blocks at line 71 with the fields as they were,
having emitted no signal, so neither `false` is returned nor `errorOccurred`
emitted when an FFmpeg call would fail. -/
theorem openFile_blocks (s : FFmpegWrapper) (filePath : String) (env : OpenEnv)
    (workerPos : Option ℚ) :
    (openFile s filePath env workerPos).ret = none ∧
      signals (openFile s filePath env workerPos).trace = [] ∧
      (openFile s filePath env workerPos).state = s := by
  unfold openFile
  rw [closeFile_under_locker]
  exact ⟨rfl, rfl, rfl⟩

/-- Evaluation of `openFile` on the freshly constructed engine with a file that
cannot be opened: the call does not return and its only actions are the two
requests for the lock. -/
theorem openFile_missing_file :
    (openFile FFmpegWrapper.init "none.mp4" missingFile none).ret = none ∧
      (openFile FFmpegWrapper.init "none.mp4" missingFile none).trace =
        [Act.lock, Act.lock] := by
  unfold openFile
  rw [closeFile_under_locker]
  exact ⟨rfl, rfl⟩

/-- C4: with a session open, after `play` the engine is playing and not
paused; on an engine that is already playing `play` changes no field and does
not start the thread; and a second `play` changes nothing after the first and
does not start the thread again. -/
theorem play_spec (s : FFmpegWrapper) (hopen : s.m_formatCtx = true) :
    isPlaying (play s).state = true ∧
      isPaused (play s).state = false ∧
      (isPlaying s = true → (play s).state = s ∧ Act.threadStart ∉ (play s).trace) ∧
      (play (play s).state).state = (play s).state ∧
      Act.threadStart ∉ (play (play s).state).trace := by
  cases h1 : s.m_isRunning <;> cases h2 : s.m_isPaused <;>
    simp [play, hopen, h1, h2, isPlaying, isPaused]
  obtain ⟨⟩ := s
  simp_all

/-- Witness of `play_spec`: the playing engine, paused and played again. -/
theorem play_spec_witness :
    (pause playingEngine).state.m_formatCtx = true ∧
      isPlaying (play (pause playingEngine).state).state = true ∧
      isPaused (play (pause playingEngine).state).state = false :=
  ⟨rfl, (play_spec (pause playingEngine).state rfl).1,
    (play_spec (pause playingEngine).state rfl).2.1⟩

/-- C5: `pause` on a playing engine with its session open makes it paused and
not playing, keeps the thread and the loop flag `m_isRunning` alive and asks
for no thread stop; an iteration of the worker loop entered with `m_isPaused`
set reads no packet, emits no signal, changes no field (so not the position)
and stays in the loop; and `play` after `pause` gives back the very same
fields, playing again. -/
theorem pause_spec (s : FFmpegWrapper) (hopen : s.m_formatCtx = true)
    (hplay : isPlaying s = true) (p : FFmpegWrapper) (hp : p.m_isPaused = true)
    (now lastFrameTime : Int) (it : Iteration) :
    isPaused (pause s).state = true ∧
      isPlaying (pause s).state = false ∧
      (pause s).state.threadRunning = s.threadRunning ∧
      (pause s).state.m_isRunning = true ∧
      Act.threadQuit ∉ (pause s).trace ∧
      (pause s).state.m_isPaused = true ∧
      Act.readFrame ∉ untimed (decodeLoopIter p now lastFrameTime it).trace ∧
      signals (untimed (decodeLoopIter p now lastFrameTime it).trace) = [] ∧
      (decodeLoopIter p now lastFrameTime it).state = p ∧
      (decodeLoopIter p now lastFrameTime it).continues = true ∧
      (play (pause s).state).state = s ∧
      isPlaying (play (pause s).state).state = true := by
  simp only [isPlaying, Bool.and_eq_true, Bool.not_eq_true'] at hplay
  obtain ⟨hr, hnp⟩ := hplay
  obtain ⟨⟩ := s
  simp_all [pause, play, isPaused, isPlaying, decodeLoopIter, untimed, signals]

/-- Witness of `pause_spec`: the playing engine is paused, the worker runs one
iteration on the paused fields, and the engine is played again. -/
theorem pause_spec_witness :
    playingEngine.m_formatCtx = true ∧ isPlaying playingEngine = true ∧
      (pause playingEngine).state.m_isPaused = true ∧
      signals (untimed (decodeLoopIter (pause playingEngine).state 0 0 (videoPacket 1)).trace)
        = [] ∧
      (play (pause playingEngine).state).state = playingEngine :=
  ⟨rfl, rfl, rfl,
    (pause_spec playingEngine rfl rfl (pause playingEngine).state rfl 0 0 (videoPacket 1)).2.2.2.2.2.2.2.1,
    (pause_spec playingEngine rfl rfl (pause playingEngine).state rfl 0 0 (videoPacket 1)).2.2.2.2.2.2.2.2.2.2.1⟩

/-- C8: whatever the fields before, after `closeFile` all handles and buffers
are null, the stream index is -1, duration, position, width and height are 0,
the file path is empty, the engine is neither playing nor paused, and a second
`closeFile` leaves every field as the first left it. -/
theorem closeFile_resets (s : FFmpegWrapper) (workerPos workerPos2 : Option ℚ) :
    (closeFile s workerPos).state.m_formatCtx = false ∧
      (closeFile s workerPos).state.m_videoCodecCtx = false ∧
      (closeFile s workerPos).state.m_videoStream = none ∧
      (closeFile s workerPos).state.m_swsCtx = false ∧
      (closeFile s workerPos).state.m_rawFrame = false ∧
      (closeFile s workerPos).state.m_rgbFrame = false ∧
      (closeFile s workerPos).state.m_rgbBuffer = false ∧
      (closeFile s workerPos).state.m_videoStreamIndex = -1 ∧
      getDuration (closeFile s workerPos).state = 0 ∧
      getCurrentPosition (closeFile s workerPos).state = 0 ∧
      getVideoWidth (closeFile s workerPos).state = 0 ∧
      getVideoHeight (closeFile s workerPos).state = 0 ∧
      (closeFile s workerPos).state.m_currentFilePath = "" ∧
      isPlaying (closeFile s workerPos).state = false ∧
      isPaused (closeFile s workerPos).state = false ∧
      (closeFile (closeFile s workerPos).state workerPos2).state =
        (closeFile s workerPos).state := by
  cases h1 : s.m_isRunning <;> cases h2 : s.threadRunning <;>
    simp [closeFile, freeResources, threadWait, threadFinished, h1, h2, getDuration,
      getCurrentPosition, getVideoWidth, getVideoHeight, isPlaying, isPaused]

/-- The signals of a timed concatenation. -/
theorem signals_untimed_append (a b : List (Int × Act)) :
    signals (untimed (a ++ b)) = signals (untimed a) ++ signals (untimed b) := by
  simp [untimed, signals_append]

/-- The pacing emits no signal. -/
theorem pace_signals (currentTime lastFrameTime : Int) (oversleep : Nat) :
    signals (untimed (pace currentTime lastFrameTime oversleep).2) = [] := by
  unfold pace
  dsimp only
  split <;> simp [untimed, signals]

/-- The block of lines 361-373 on a packet of the video stream blocks at the
locker of `decodeVideoFrame`; on any other packet it only takes and gives back
the lock.  It changes no field and takes no time. -/
theorem decodePacket_eq (s : FFmpegWrapper) (t1 : Int) (decodeMs : Nat) (idx : Int)
    (d : Decoded) :
    decodePacket s t1 decodeMs idx d =
      if idx = s.m_videoStreamIndex then
        { state := s, now := t1, blocked := true, trace := [(t1, Act.lock), (t1, Act.lock)] }
      else
        { state := s, now := t1, blocked := false,
          trace := [(t1, Act.lock), (t1, Act.unlock)] } := by
  simp [decodePacket, withLocker]

/-- An iteration of the worker loop changes no field. -/
theorem decodeLoopIter_state (s : FFmpegWrapper) (now lastFrameTime : Int) (it : Iteration) :
    (decodeLoopIter s now lastFrameTime it).state = s := by
  unfold decodeLoopIter
  split
  · rfl
  · split
    · rfl
    · rename_i idx d _
      by_cases h : idx = s.m_videoStreamIndex <;> simp [decodePacket_eq, h]

/-- An iteration of the worker loop emits no signal. -/
theorem decodeLoopIter_signals (s : FFmpegWrapper) (now lastFrameTime : Int) (it : Iteration) :
    signals (untimed (decodeLoopIter s now lastFrameTime it).trace) = [] := by
  unfold decodeLoopIter
  split
  · simp [untimed, signals]
  · split
    · simp [untimed, signals]
    · rename_i idx d _
      by_cases h : idx = s.m_videoStreamIndex
      · simp [decodePacket_eq, h, untimed, signals]
      · simp only [decodePacket_eq, h, if_false, Bool.false_eq_true, signals_untimed_append,
          pace_signals]
        simp [untimed, signals]

/-- An iteration of the worker loop on an engine that is not paused, whose read
reports the end of the stream, leaves the loop and does not block. -/
theorem decodeLoopIter_failed (s : FFmpegWrapper) (now lastFrameTime : Int) (it : Iteration)
    (hnp : s.m_isPaused = false) (heof : it.read = ReadFrame.failed) :
    (decodeLoopIter s now lastFrameTime it).continues = false ∧
      (decodeLoopIter s now lastFrameTime it).blocked = false := by
  simp [decodeLoopIter, hnp, heof]

/-- Unfolding of the worker loop at an iteration that stays in the loop. -/
theorem decodeLoopFrom_cons (s : FFmpegWrapper) (now lastFrameTime : Int) (i : Iteration)
    (rest : List Iteration) (hrun : s.m_isRunning = true)
    (hc : (decodeLoopIter s now lastFrameTime i).continues = true) :
    decodeLoopFrom s now lastFrameTime (i :: rest) =
      { decodeLoopFrom (decodeLoopIter s now lastFrameTime i).state
          (decodeLoopIter s now lastFrameTime i).now
          (decodeLoopIter s now lastFrameTime i).lastFrameTime rest with
        trace := (decodeLoopIter s now lastFrameTime i).trace ++
          (decodeLoopFrom (decodeLoopIter s now lastFrameTime i).state
            (decodeLoopIter s now lastFrameTime i).now
            (decodeLoopIter s now lastFrameTime i).lastFrameTime rest).trace } := by
  simp only [decodeLoopFrom, hrun, if_true, hc]

/-- Unfolding of the worker loop at an iteration that does not stay in the
loop: the iterations after it play no part. -/
theorem decodeLoopFrom_last (s : FFmpegWrapper) (now lastFrameTime : Int) (i : Iteration)
    (rest : List Iteration) (hrun : s.m_isRunning = true)
    (hc : (decodeLoopIter s now lastFrameTime i).continues = false) :
    decodeLoopFrom s now lastFrameTime (i :: rest) =
      if (decodeLoopIter s now lastFrameTime i).blocked then
        { state := (decodeLoopIter s now lastFrameTime i).state,
          now := (decodeLoopIter s now lastFrameTime i).now, exited := false, blocked := true,
          trace := (decodeLoopIter s now lastFrameTime i).trace }
      else
        { decodeLoopExit (decodeLoopIter s now lastFrameTime i).state
            (decodeLoopIter s now lastFrameTime i).now with
          trace := (decodeLoopIter s now lastFrameTime i).trace ++
            (decodeLoopExit (decodeLoopIter s now lastFrameTime i).state
              (decodeLoopIter s now lastFrameTime i).now).trace } := by
  simp only [decodeLoopFrom, hrun, if_true, hc, Bool.false_eq_true, if_false]

/-- The worker loop that is still running after the iterations `pre`, neither
left nor blocked, and then meets an iteration whose read fails: the loop is
left there, the only signal of the run is `playbackFinished`, and the
`finished` handler has run on the fields. -/
theorem decodeLoopFrom_end_of_stream (it : Iteration) (rest : List Iteration)
    (heof : it.read = ReadFrame.failed) (pre : List Iteration) :
    ∀ (s : FFmpegWrapper) (now lastFrameTime : Int), s.m_isRunning = true →
      s.m_isPaused = false →
      (decodeLoopFrom s now lastFrameTime pre).exited = false →
      (decodeLoopFrom s now lastFrameTime pre).blocked = false →
      (decodeLoopFrom s now lastFrameTime (pre ++ it :: rest)).exited = true ∧
        (decodeLoopFrom s now lastFrameTime (pre ++ it :: rest)).blocked = false ∧
        (decodeLoopFrom s now lastFrameTime (pre ++ it :: rest)).state = threadFinished s ∧
        signals (untimed (decodeLoopFrom s now lastFrameTime (pre ++ it :: rest)).trace) =
          [Signal.playbackFinished] := by
  induction pre with
  | nil =>
    intro s now lastFrameTime hrun hnp _ _
    obtain ⟨hc, hb⟩ := decodeLoopIter_failed s now lastFrameTime it hnp heof
    rw [List.nil_append, decodeLoopFrom_last s now lastFrameTime it rest hrun hc]
    simp only [hb, Bool.false_eq_true, if_false, decodeLoopExit, decodeLoopIter_state,
      signals_untimed_append, decodeLoopIter_signals, List.nil_append, true_and]
    simp [untimed, signals]
  | cons i pre ih =>
    intro s now lastFrameTime hrun hnp hex hbl
    by_cases hc : (decodeLoopIter s now lastFrameTime i).continues = true
    · rw [decodeLoopFrom_cons s now lastFrameTime i _ hrun hc] at hex hbl
      rw [List.cons_append, decodeLoopFrom_cons s now lastFrameTime i _ hrun hc]
      simp only [decodeLoopIter_state] at hex hbl ⊢
      obtain ⟨h1, h2, h3, h4⟩ := ih s _ _ hrun hnp hex hbl
      refine ⟨h1, h2, h3, ?_⟩
      rw [signals_untimed_append, decodeLoopIter_signals, h4, List.nil_append]
    · simp only [Bool.not_eq_true] at hc
      rw [decodeLoopFrom_last s now lastFrameTime i _ hrun hc] at hex hbl
      cases hb : (decodeLoopIter s now lastFrameTime i).blocked
      · simp [hb, decodeLoopExit] at hex
      · simp [hb] at hbl

/-- The worker loop stops at an iteration whose read fails: the iterations
after it are not run. -/
theorem decodeLoopFrom_stops (it : Iteration) (rest : List Iteration)
    (heof : it.read = ReadFrame.failed) (pre : List Iteration) :
    ∀ (s : FFmpegWrapper) (now lastFrameTime : Int), s.m_isRunning = true →
      s.m_isPaused = false →
      decodeLoopFrom s now lastFrameTime (pre ++ it :: rest) =
        decodeLoopFrom s now lastFrameTime (pre ++ [it]) := by
  induction pre with
  | nil =>
    intro s now lastFrameTime hrun hnp
    obtain ⟨hc, _⟩ := decodeLoopIter_failed s now lastFrameTime it hnp heof
    rw [List.nil_append, List.nil_append, decodeLoopFrom_last s now lastFrameTime it rest hrun hc,
      decodeLoopFrom_last s now lastFrameTime it [] hrun hc]
  | cons i pre ih =>
    intro s now lastFrameTime hrun hnp
    by_cases hc : (decodeLoopIter s now lastFrameTime i).continues = true
    · rw [List.cons_append, List.cons_append, decodeLoopFrom_cons s now lastFrameTime i _ hrun hc,
        decodeLoopFrom_cons s now lastFrameTime i _ hrun hc]
      simp only [decodeLoopIter_state]
      rw [ih s _ _ hrun hnp]
    · simp only [Bool.not_eq_true] at hc
      rw [List.cons_append, List.cons_append, decodeLoopFrom_last s now lastFrameTime i _ hrun hc,
        decodeLoopFrom_last s now lastFrameTime i _ hrun hc]

/-- C7: on a playing engine whose worker is still in its loop after the
iterations `pre`, neither left nor blocked, when the read of the next iteration
reports the end of the stream the worker loop is left at that iteration (later
iterations are not run), `playbackFinished` is emitted exactly once, no
`errorOccurred` is emitted, and afterwards the engine is neither playing nor
paused. -/
theorem decodeLoop_end_of_stream (s : FFmpegWrapper) (start : Int)
    (pre : List Iteration) (it : Iteration) (rest : List Iteration)
    (hplay : isPlaying s = true)
    (hin : (decodeLoop s start pre).exited = false)
    (hfree : (decodeLoop s start pre).blocked = false)
    (heof : it.read = ReadFrame.failed) :
    (decodeLoop s start (pre ++ it :: rest)).exited = true ∧
      decodeLoop s start (pre ++ it :: rest) = decodeLoop s start (pre ++ [it]) ∧
      (signals (untimed (decodeLoop s start (pre ++ it :: rest)).trace)).count
        Signal.playbackFinished = 1 ∧
      (∀ msg, Signal.errorOccurred msg ∉
        signals (untimed (decodeLoop s start (pre ++ it :: rest)).trace)) ∧
      isPlaying (decodeLoop s start (pre ++ it :: rest)).state = false ∧
      isPaused (decodeLoop s start (pre ++ it :: rest)).state = false := by
  simp only [isPlaying, Bool.and_eq_true, Bool.not_eq_true'] at hplay
  obtain ⟨hrun, hnp⟩ := hplay
  unfold decodeLoop at hin hfree ⊢
  obtain ⟨h1, _, h3, h4⟩ :=
    decodeLoopFrom_end_of_stream it rest heof pre s start start hrun hnp hin hfree
  have hstop := decodeLoopFrom_stops it rest heof pre s start start hrun hnp
  refine ⟨h1, hstop, ?_, ?_, ?_, ?_⟩
  · rw [h4]
    rfl
  · intro msg hmem
    rw [h4] at hmem
    simp at hmem
  · simp [isPlaying, h3, threadFinished]
  · simp [isPaused, h3, threadFinished]

/-- Witness of `decodeLoop_end_of_stream`: two packets of another stream, then
the end of the stream, then a packet that is never read. -/
theorem decodeLoop_end_of_stream_witness :
    isPlaying playingEngine = true ∧
      (decodeLoop playingEngine 0 [otherPacket, otherPacket]).exited = false ∧
      (decodeLoop playingEngine 0 [otherPacket, otherPacket]).blocked = false ∧
      (decodeLoop playingEngine 0
        ([otherPacket, otherPacket] ++ endOfStream :: [videoPacket 3])).exited = true ∧
      isPlaying (decodeLoop playingEngine 0
        ([otherPacket, otherPacket] ++ endOfStream :: [videoPacket 3])).state = false :=
  ⟨rfl, by decide, by decide,
    (decodeLoop_end_of_stream playingEngine 0 [otherPacket, otherPacket] endOfStream
      [videoPacket 3] rfl (by decide) (by decide) rfl).1,
    (decodeLoop_end_of_stream playingEngine 0 [otherPacket, otherPacket] endOfStream
      [videoPacket 3] rfl (by decide) (by decide) rfl).2.2.2.2.1⟩

/-- C9: whatever the fields before and whatever the calls return, `stop` emits
its one signal, `positionChanged 0`, with one locker held by the emitting
thread. -/
theorem stop_emits_locked (s : FFmpegWrapper) (workerPos : Option ℚ) (seekOk : Bool) :
    lockDepths 0 (stop s workerPos seekOk).trace = [(Signal.positionChanged 0, 1)] := by
  cases h1 : s.threadRunning <;> cases h2 : s.m_formatCtx <;> cases seekOk <;>
    simp [stop, lockDepths, threadWait, threadFinished, h1, h2]

/-- C10: whatever the fields before and whatever the calls return, `openFile`
asks for the lock while its own locker holds it (the locker of `closeFile`,
called at line 71 under the locker of line 68). -/
theorem openFile_locks_twice (s : FFmpegWrapper) (filePath : String) (env : OpenEnv)
    (workerPos : Option ℚ) :
    selfLockFree false (openFile s filePath env workerPos).trace = false := by
  unfold openFile
  rw [closeFile_under_locker]
  rfl

/-- Evaluation of one worker iteration on a video packet: the locker of
`decodeVideoFrame` (line 399) is constructed under the locker of line 362. -/
theorem decodeLoopIter_locks_twice :
    selfLockFree false (untimed (decodeLoopIter playingEngine 0 0 (videoPacket 1)).trace)
      = false := by
  decide

/-- C11, as stated, fails: on the playing engine, whose session is open, a
`seek` and a `stop` whose `av_seek_frame` fails do not flush the decoder. -/
theorem flush_not_unconditional :
    ¬ ∀ (s : FFmpegWrapper) (workerPos : Option ℚ) (t : ℚ) (seekOk : Bool),
      s.m_formatCtx = true →
        Act.flushBuffers ∈ (stop s workerPos seekOk).trace ∧
          Act.flushBuffers ∈ (seek s t seekOk).trace := by
  intro h
  have h1 := (h playingEngine none 5 false rfl).2
  simp [seek, playingEngine, FFmpegWrapper.init] at h1

/-- C11, amended: with a session open, `stop` and `seek t` flush the decoder
exactly when their call of `av_seek_frame` succeeds. -/
theorem flush_iff_seek_succeeds (s : FFmpegWrapper) (workerPos : Option ℚ) (t : ℚ)
    (seekOk : Bool) (hopen : s.m_formatCtx = true) :
    (Act.flushBuffers ∈ (stop s workerPos seekOk).trace ↔ seekOk = true) ∧
      (Act.flushBuffers ∈ (seek s t seekOk).trace ↔ seekOk = true) := by
  cases seekOk <;> cases h1 : s.threadRunning <;>
    simp [stop, seek, threadWait, threadFinished, hopen, h1]

/-- Witness of `flush_iff_seek_succeeds`: the playing engine, seek succeeding. -/
theorem flush_iff_seek_succeeds_witness :
    playingEngine.m_formatCtx = true ∧
      Act.flushBuffers ∈ (stop playingEngine none true).trace ∧
      Act.flushBuffers ∈ (seek playingEngine 5 true).trace :=
  ⟨rfl, (flush_iff_seek_succeeds playingEngine none 5 true rfl).1.mpr rfl,
    (flush_iff_seek_succeeds playingEngine none 5 true rfl).2.mpr rfl⟩

/-- The value of `frameInterval`: 33 milliseconds. -/
theorem frameInterval_eq : frameInterval = 33 := by decide

/-- After the pacing the time is not before the checkpoint and at least 33 ms
after the previous checkpoint. -/
theorem pace_bounds (currentTime lastFrameTime : Int) (oversleep : Nat) :
    currentTime ≤ (pace currentTime lastFrameTime oversleep).1 ∧
      lastFrameTime + 33 ≤ (pace currentTime lastFrameTime oversleep).1 := by
  unfold pace
  dsimp only
  rw [frameInterval_eq]
  split <;> dsimp only <;> constructor <;> omega

/-- The block of lines 361-373 does not end before it starts. -/
theorem decodePacket_time (s : FFmpegWrapper) (t1 : Int) (decodeMs : Nat) (idx : Int)
    (d : Decoded) : t1 ≤ (decodePacket s t1 decodeMs idx d).now := by
  rw [decodePacket_eq]
  split <;> exact le_refl _

/-- A paused iteration keeps `lastFrameTime` and does not go back in time. -/
theorem decodeLoopIter_paused (s : FFmpegWrapper) (now lastFrameTime : Int) (it : Iteration)
    (hp : s.m_isPaused = true) :
    (decodeLoopIter s now lastFrameTime it).lastFrameTime = lastFrameTime ∧
      now ≤ (decodeLoopIter s now lastFrameTime it).now := by
  unfold decodeLoopIter
  simp only [hp, if_true]
  constructor
  · trivial
  · omega

/-- An iteration that read a packet and came to its end: its checkpoint is not
before its start, and it ends not before its checkpoint and at least 33 ms
after the previous checkpoint. -/
theorem decodeLoopIter_packet (s : FFmpegWrapper) (now lastFrameTime : Int) (it : Iteration)
    (hp : s.m_isPaused = false)
    (hc : (decodeLoopIter s now lastFrameTime it).continues = true) :
    now ≤ (decodeLoopIter s now lastFrameTime it).lastFrameTime ∧
      (decodeLoopIter s now lastFrameTime it).lastFrameTime ≤
        (decodeLoopIter s now lastFrameTime it).now ∧
      lastFrameTime + 33 ≤ (decodeLoopIter s now lastFrameTime it).now := by
  unfold decodeLoopIter at hc ⊢
  simp only [hp, Bool.false_eq_true, if_false] at hc ⊢
  split
  · rename_i heq
    simp [heq] at hc
  · rename_i idx d heq
    simp only [heq] at hc
    have h1 := decodePacket_time s (now + it.readMs) it.decodeMs idx d
    have h2 := pace_bounds (decodePacket s (now + it.readMs) it.decodeMs idx d).now
      lastFrameTime it.oversleep
    cases hb : (decodePacket s (now + it.readMs) it.decodeMs idx d).blocked
    · simp only [hb, Bool.false_eq_true, if_false]
      refine ⟨?_, h2.1, h2.2⟩
      omega
    · simp [hb] at hc

/-- No checkpoint of a run is before the time the run starts at. -/
theorem checkpoints_ge_now (its : List Iteration) :
    ∀ (s : FFmpegWrapper) (now lastFrameTime : Int),
      ∀ x ∈ checkpoints s now lastFrameTime its, now ≤ x := by
  induction its with
  | nil => intro s now lastFrameTime x hx; simp [checkpoints] at hx
  | cons it rest ih =>
    intro s now lastFrameTime x hx
    unfold checkpoints at hx
    by_cases hrun : s.m_isRunning = true
    · by_cases hc : (decodeLoopIter s now lastFrameTime it).continues = true
      · cases hp : s.m_isPaused
        · obtain ⟨h1, h2, _⟩ := decodeLoopIter_packet s now lastFrameTime it hp hc
          simp only [hrun, if_true, hc, hp, Bool.false_eq_true, if_false,
            List.mem_cons] at hx
          rcases hx with hx | hx
          · omega
          · have := ih _ _ _ x hx
            omega
        · obtain ⟨_, h2⟩ := decodeLoopIter_paused s now lastFrameTime it hp
          simp only [hrun, if_true, hc, hp] at hx
          have := ih _ _ _ x hx
          omega
      · simp [hrun, hc] at hx
    · simp [hrun] at hx

/-- Every checkpoint of a run but the first is at least 33 ms after the
`lastFrameTime` the run starts with. -/
theorem checkpoints_after_first (its : List Iteration) :
    ∀ (s : FFmpegWrapper) (now lastFrameTime : Int) (k : Nat) (x : Int),
      (checkpoints s now lastFrameTime its)[k + 1]? = some x → lastFrameTime + 33 ≤ x := by
  induction its with
  | nil => intro s now lastFrameTime k x hx; simp [checkpoints] at hx
  | cons it rest ih =>
    intro s now lastFrameTime k x hx
    unfold checkpoints at hx
    by_cases hrun : s.m_isRunning = true
    · by_cases hc : (decodeLoopIter s now lastFrameTime it).continues = true
      · cases hp : s.m_isPaused
        · obtain ⟨_, _, h3⟩ := decodeLoopIter_packet s now lastFrameTime it hp hc
          simp only [hrun, if_true, hc, hp, Bool.false_eq_true, if_false,
            List.getElem?_cons_succ] at hx
          have := checkpoints_ge_now rest _ _ _ x (List.getElem?_mem hx)
          omega
        · obtain ⟨h1, _⟩ := decodeLoopIter_paused s now lastFrameTime it hp
          simp only [hrun, if_true, hc, hp] at hx
          have := ih _ _ _ k x hx
          omega
      · simp [hrun, hc] at hx
    · simp [hrun] at hx

/-- C12: in every run of the worker loop, with the clock in whole milliseconds
that never goes back and sleeps that last at least the time asked for, the
checkpoint two packets after a checkpoint is at least 33 ms later
(`c_(k+1) - c_(k-1) >= 33`): in a window shorter than 33 ms the worker passes
at most two checkpoints. -/
theorem checkpoints_two_apart (its : List Iteration) :
    ∀ (s : FFmpegWrapper) (now lastFrameTime : Int) (k : Nat) (a b : Int),
      (checkpoints s now lastFrameTime its)[k]? = some a →
      (checkpoints s now lastFrameTime its)[k + 2]? = some b → b - a ≥ 33 := by
  induction its with
  | nil => intro s now lastFrameTime k a b ha; simp [checkpoints] at ha
  | cons it rest ih =>
    intro s now lastFrameTime k a b ha hb
    unfold checkpoints at ha hb
    by_cases hrun : s.m_isRunning = true
    · by_cases hc : (decodeLoopIter s now lastFrameTime it).continues = true
      · cases hp : s.m_isPaused
        · simp only [hrun, if_true, hc, hp, Bool.false_eq_true, if_false] at ha hb
          cases k with
          | zero =>
            simp only [List.getElem?_cons_zero, Option.some.injEq] at ha
            simp only [Nat.zero_add, List.getElem?_cons_succ] at hb
            have := checkpoints_after_first rest _ _ _ 0 b hb
            omega
          | succ k =>
            rw [show k + 1 + 2 = (k + 2) + 1 from by omega] at hb
            simp only [List.getElem?_cons_succ] at ha hb
            exact ih _ _ _ k a b ha hb
        · simp only [hrun, if_true, hc, hp] at ha hb
          exact ih _ _ _ k a b ha hb
      · simp [hrun, hc] at ha
    · simp [hrun] at ha

/-- Witness of `checkpoints_two_apart`: three packets of another stream than
the video stream, read in no time, have their checkpoints at 0, 33 and 33 ms. -/
theorem checkpoints_two_apart_witness :
    (checkpoints playingEngine 0 0 [otherPacket, otherPacket, otherPacket])[0]? = some 0 ∧
      (checkpoints playingEngine 0 0 [otherPacket, otherPacket, otherPacket])[0 + 2]?
        = some 33 ∧
      (33 : Int) - 0 ≥ 33 :=
  ⟨by decide, by decide,
    checkpoints_two_apart [otherPacket, otherPacket, otherPacket] playingEngine 0 0 0 0 33
      (by decide) (by decide)⟩

/-- C13: evaluation of `seek 5` on the playing engine, whose video stream 0 has
the time base 1/25: the timestamp handed to `av_seek_frame` for stream 0 is
5000000, which the worker's formula reads as second 200000, more than one tick
(1/25 s) away from second 5. -/
theorem seek_timestamp_units :
    seekTargets (seek playingEngine 5 true).trace = [(0, 5000000)] ∧
      playingEngine.m_videoStream = some { num := 1, den := 25 } ∧
      positionOf playingEngine 5000000 = 200000 ∧
      av_q2d { num := 1, den := 25 } < |positionOf playingEngine 5000000 - 5| := by
  refine ⟨?_, rfl, ?_, ?_⟩
  · have h : toInt64 (5 * ((AV_TIME_BASE : Int) : ℚ)) = 5000000 := by
      simp only [toInt64, AV_TIME_BASE]
      norm_num
      rfl
    simp [seek, playingEngine, FFmpegWrapper.init, seekTargets, h]
  · simp only [positionOf, playingEngine, av_q2d]
    norm_num
  · simp only [positionOf, playingEngine, av_q2d]
    norm_num

end QMusic
